import Mathlib

/-
  Shallow embedding of src/transcribe_audio.py.

  The script converts seconds to MM:SS timestamps, renders a Whisper
  transcription result into a markdown document, and orchestrates a
  pipeline: validate the input path, transcribe, render markdown, persist.

  Modelling conventions:
  - Python floats carrying segment start times are modelled as rationals;
    the operations the code performs on them (floor division, modulo,
    int truncation) are exact and representation-independent on the
    inputs the claims use.
  - A Whisper result dict is a structure with a `text` field and an
    optional `segments` field; `none` models the absence of the
    "segments" key (the code tests key membership with `in`).
  - The file system is a map from path strings to contents.  The outcome
    of the external model invocation and the wall-clock time string are
    inputs of a run, since they come from outside the program.
  - Exceptions: a Python function that can let an exception escape is
    given an explicit `raised` observation in the run result.
-/

namespace TranscribeAudio

/-- One recognized utterance span: the fields `start` and `text` of a
Whisper segment dict, as read by create_markdown. -/
structure Segment where
  start : ℚ
  text : String
deriving DecidableEq

/-- A Whisper transcription result dict: the `text` key and the optional
`segments` key (`none` models the key being absent). -/
structure Transcription where
  text : String
  segments : Option (List Segment)
deriving DecidableEq

/-- Embedding of the Python f-string directive `{i:02d}`: decimal rendering
zero-padded on the left to width 2.  For `0 ≤ i < 10` a single zero is
prepended; otherwise the plain decimal form already has width at least 2
(this also matches Python for every `i ≤ -1`, where the sign character
fills the field). -/
def format02d (i : ℤ) : String :=
  if 0 ≤ i ∧ i < 10 then "0" ++ toString i else toString i

/-- Embedding of `format_timestamp` (transcribe_audio.py lines 71-83):
`minutes = int(seconds // 60)`, `seconds = int(seconds % 60)`,
`return f"{minutes:02d}:{seconds:02d}"`.  Python `x // y` is `⌊x / y⌋`
and `x % y` is `x - y * ⌊x / y⌋`, which lies in `[0, y)` for `y > 0`,
so `int` truncation coincides with the floor on both lines. -/
def format_timestamp (seconds : ℚ) : String :=
  let minutes : ℤ := ⌊seconds / 60⌋
  let secs : ℤ := ⌊seconds - 60 * (⌊seconds / 60⌋ : ℤ)⌋
  format02d minutes ++ ":" ++ format02d secs

/-- Embedding of `Path(p).name`: the final path component (the model
assumes `p` has no trailing slash, as in the script). -/
def basename (p : String) : String :=
  ⟨(p.data.reverse.takeWhile (fun c => c ≠ '/')).reverse⟩

/-- Embedding of `Path(p).stem`: the final component minus its extension.
Pathlib takes the extension from the last dot of the name, provided that
dot is neither the first nor the last character of the name. -/
def stem (p : String) : String :=
  let name := basename p
  let rev := name.data.reverse
  let afterDot := rev.takeWhile (fun c => c ≠ '.')
  if afterDot.length < rev.length ∧ afterDot ≠ [] ∧ afterDot.length + 1 < rev.length then
    ⟨(rev.drop (afterDot.length + 1)).reverse⟩
  else name

/-- Embedding of Python `str.strip()` with no argument: remove leading
and trailing whitespace characters. -/
def pyStrip (s : String) : String :=
  ⟨((s.data.dropWhile Char.isWhitespace).reverse.dropWhile Char.isWhitespace).reverse⟩

/-- The line the create_markdown loop appends for one segment
(transcribe_audio.py line 113): `f"[{time}] {text}\n\n"` with
`time = format_timestamp(segment["start"])` and
`text = segment["text"].strip()`. -/
def segLine (seg : Segment) : String :=
  "[" ++ format_timestamp seg.start ++ "] " ++ pyStrip seg.text ++ "\n\n"

/-- The header f-string of create_markdown (transcribe_audio.py
lines 99-106), with the file name and generation time substituted. -/
def mkHeader (file_name current_time : String) : String :=
  "# Audio Transcription\n\n## File Information\n- **Source File:** " ++ file_name ++
    "\n- **Transcription Date:** " ++ current_time ++ "\n\n## Segments\n"

/-- Embedding of `create_markdown` (transcribe_audio.py lines 85-115).
The wall-clock string produced by `datetime.now().strftime(...)` is the
explicit parameter `current_time`.  The loop `markdown += ...` over
`transcription["segments"]` is a left fold starting from the header; it
runs only when the "segments" key is present. -/
def create_markdown (transcription : Transcription) (input_file : String)
    (current_time : String) : String :=
  let file_name := basename input_file
  let markdown := mkHeader file_name current_time
  match transcription.segments with
  | some segs => segs.foldl (fun md seg => md ++ segLine seg) markdown
  | none => markdown

/-- Observable outcome of one call to `transcribe_audio`.  The code can
return a result dict or `None`; the constructor `transcriptionError`
exists only to express the specification claim that a failure surfaces
as a raised TranscriptionError, and is never produced by the code. -/
inductive EngineOutcome where
  | result (r : Transcription)
  | noResult
  | transcriptionError (cause : String)
deriving DecidableEq

/-- Embedding of `transcribe_audio` (transcribe_audio.py lines 41-65).
The input is the outcome of the underlying model invocation (load plus
transcribe), which is external.  The first component records the model
loads the call performs: `whisper.load_model("base")` runs
unconditionally inside the try block, so every call contributes one load
of size "base".  The except clause catches every exception, logs it and
returns `None`, so a model failure yields `noResult` and nothing is
raised. -/
def transcribe_audio (modelOutcome : Except String Transcription) :
    List String × EngineOutcome :=
  match modelOutcome with
  | Except.ok r => (["base"], EngineOutcome.result r)
  | Except.error _ => (["base"], EngineOutcome.noResult)

/-- Pipeline stages observable in a run of `main`.  The constructor
`convert` exists only to express the specification claim that a format
conversion stage runs; `main` never performs one. -/
inductive Stage where
  | validate
  | convert
  | loadModel
  | transcribeStage
  | formatStage
  | persist
deriving DecidableEq

/-- The inputs of one run that come from outside the program: the file
system, the outcome of the model invocation, and the current time. -/
structure World where
  files : String → Option String
  modelOutcome : Except String Transcription
  now : String

/-- Observable result of one run of `main`: the final file system, the
log messages main itself emits (level, text), the stages performed, the
model loads performed, and the exception escaping `main`, if any. -/
structure RunResult where
  files : String → Option String
  log : List (String × String)
  events : List Stage
  loads : List String
  raised : Option String

/-- Embedding of the body of `main` (transcribe_audio.py lines 117-143),
parameterized by the input path (the script hardcodes it; see `main`).
Control flow of the source: compute `markdown_file` from the stem of the
input; if the input path does not exist, log an error and return;
otherwise call `transcribe_audio` (outside any try block, so an
exception raised there would escape) and if it returns a falsy value,
return; otherwise render the markdown and write it, overwriting.  The
write is modelled as always succeeding. -/
def run (audio_file : String) (w : World) : RunResult :=
  let markdown_file := stem audio_file ++ "_transcription.md"
  if (w.files audio_file).isNone then
    { files := w.files
      log := [("ERROR", "Input file not found: " ++ audio_file)]
      events := [Stage.validate]
      loads := []
      raised := none }
  else
    let call := transcribe_audio w.modelOutcome
    match call.2 with
    | EngineOutcome.noResult =>
      { files := w.files
        log := []
        events := [Stage.validate, Stage.loadModel, Stage.transcribeStage]
        loads := call.1
        raised := none }
    | EngineOutcome.transcriptionError cause =>
      { files := w.files
        log := []
        events := [Stage.validate, Stage.loadModel, Stage.transcribeStage]
        loads := call.1
        raised := some ("TranscriptionError: " ++ cause) }
    | EngineOutcome.result r =>
      let md := create_markdown r audio_file w.now
      { files := fun p => if p = markdown_file then some md else w.files p
        log := [("INFO", "Transcription saved to " ++ markdown_file)]
        events := [Stage.validate, Stage.loadModel, Stage.transcribeStage,
                   Stage.formatStage, Stage.persist]
        loads := call.1
        raised := none }

/-- The input path hardcoded in `main` (transcribe_audio.py line 122). -/
def audio_file : String := "TPS/transcribe/lat_dir_grumpy.mp3"

/-- Embedding of `main`: a run on the hardcoded input path. -/
def main (w : World) : RunResult := run audio_file w

/-- The model loads performed by a sequence of `transcribe_audio` calls
within one process lifetime. -/
def processLoads (calls : List (Except String Transcription)) : List String :=
  (calls.map (fun c => (transcribe_audio c).1)).flatten

/-- The fixed stub transcription result used by the specification:
text "hello world", segments starting at 0.0 and 1.5 seconds. -/
def stubResult : Transcription :=
  { text := "hello world"
    segments := some [{ start := 0, text := "hello" }, { start := 3/2, text := "world" }] }

/-- The body the create_markdown loop produces: one segment line per
segment, in order. -/
def bodyOf : List Segment → String
  | [] => ""
  | seg :: rest => segLine seg ++ bodyOf rest

/-- Sample world: the hardcoded input file exists, the model invocation
fails with an out-of-memory condition. -/
def wC3 : World :=
  { files := fun p => if p = audio_file then some "mp3-bytes" else none
    modelOutcome := Except.error "out of memory"
    now := "2024-01-01 00:00:00" }

/-- Sample world: no file exists at any path; the model would succeed. -/
def wC4 : World :=
  { files := fun _ => none
    modelOutcome := Except.ok stubResult
    now := "2024-01-01 00:00:00" }

/-- Sample world: the hardcoded input file exists and the model
invocation succeeds with the stub result. -/
def wC5 : World :=
  { files := fun p => if p = audio_file then some "mp3-bytes" else none
    modelOutcome := Except.ok stubResult
    now := "2024-01-01 00:00:00" }

/-- A second transcription result, for re-run scenarios. -/
def secondResult : Transcription :=
  { text := "goodbye", segments := none }

/-! Helper lemmas shared by the claim theorems. -/

/-- Unfolding lemma for `format_timestamp` given the two floor values. -/
lemma format_timestamp_eq (q : ℚ) (m s : ℤ) (h1 : ⌊q / 60⌋ = m)
    (h2 : ⌊q - 60 * (m : ℚ)⌋ = s) :
    format_timestamp q = format02d m ++ ":" ++ format02d s := by
  simp only [format_timestamp, h1, h2]

/-- On a natural number of seconds, the two computed fields are natural
division and remainder by 60. -/
lemma format_timestamp_natCast (n : ℕ) :
    format_timestamp (n : ℚ) =
      format02d ((n / 60 : ℕ) : ℤ) ++ ":" ++ format02d ((n % 60 : ℕ) : ℤ) := by
  apply format_timestamp_eq
  · rw [show ((n : ℚ) / 60) = (((n : ℤ) : ℚ) / ((60 : ℕ) : ℚ)) by push_cast; ring]
    rw [Rat.floor_intCast_div_natCast, ← Int.natCast_div]
  · have key : (n : ℚ) - 60 * (((n / 60 : ℕ) : ℤ) : ℚ) = ((n % 60 : ℕ) : ℚ) := by
      rw [Int.cast_natCast]
      conv_lhs => rw [show (n : ℚ) = ((60 * (n / 60) + n % 60 : ℕ) : ℚ) by rw [Nat.div_add_mod]]
      push_cast
      ring
    rw [key, Int.floor_natCast]

/-- Zero padding gives exactly two characters on every value below 60. -/
lemma format02d_len (n : ℕ) (h : n < 60) : (format02d (n : ℤ)).length = 2 := by
  revert h; revert n; decide

/-- Timestamp of the stub segment at 0.0 seconds. -/
lemma format_timestamp_zero : format_timestamp 0 = "00:00" := by
  rw [format_timestamp_eq 0 0 0]
  · decide
  · rw [Int.floor_eq_iff]; norm_num
  · rw [Int.floor_eq_iff]; norm_num

/-- Timestamp of the stub segment at 1.5 seconds: truncated to one second. -/
lemma format_timestamp_three_halves : format_timestamp (3 / 2) = "00:01" := by
  rw [format_timestamp_eq (3 / 2) 0 1]
  · decide
  · rw [Int.floor_eq_iff]; norm_num
  · rw [Int.floor_eq_iff]; norm_num

/-- 125.7 seconds formats as 02:05, the fraction truncated. -/
lemma format_timestamp_1257 : format_timestamp (1257 / 10) = "02:05" := by
  rw [format_timestamp_eq (1257 / 10) 2 5]
  · decide
  · rw [Int.floor_eq_iff]; norm_num
  · rw [Int.floor_eq_iff]; norm_num

/-- 59.9 seconds formats as 00:59, truncated rather than rounded to 01:00. -/
lemma format_timestamp_599 : format_timestamp (599 / 10) = "00:59" := by
  rw [format_timestamp_eq (599 / 10) 0 59]
  · decide
  · rw [Int.floor_eq_iff]; norm_num
  · rw [Int.floor_eq_iff]; norm_num

/-- Joining a head string onto a joined list. -/
lemma join_cons (a : String) (l : List String) :
    String.join (a :: l) = a ++ String.join l := by
  apply String.ext
  simp [String.join_eq]

/-- The accumulating loop of create_markdown appends `bodyOf` to its
starting string. -/
lemma foldl_segLine (l : List Segment) (init : String) :
    l.foldl (fun md seg => md ++ segLine seg) init = init ++ bodyOf l := by
  induction l generalizing init with
  | nil => simp [bodyOf, String.append_empty]
  | cons s rest ih => simp [bodyOf, ih, String.append_assoc]

/-- The loop body is the join of one line per segment, in order. -/
lemma bodyOf_eq_join (l : List Segment) :
    bodyOf l = String.join (l.map segLine) := by
  induction l with
  | nil => simp [bodyOf, String.join]
  | cons s rest ih => simp [bodyOf, ih, join_cons]

/-- create_markdown on a result with a "segments" key: header then body. -/
lemma create_markdown_some (t : String) (segs : List Segment) (f now : String) :
    create_markdown { text := t, segments := some segs } f now =
      mkHeader (basename f) now ++ bodyOf segs := by
  simp only [create_markdown]
  exact foldl_segLine segs (mkHeader (basename f) now)

/-- create_markdown on a result without a "segments" key: header only. -/
lemma create_markdown_none (t : String) (f now : String) :
    create_markdown { text := t, segments := none } f now =
      mkHeader (basename f) now := rfl

/-! Claim theorems. -/

/-- C1: for the fixed stub transcription result, timestamped rendering
produces the header followed by the body
"[00:00] hello\n\n[00:01] world\n\n" exactly: one line per segment, each
followed by a blank-line separator, fractional seconds truncated. -/
theorem claim_c1 (f now : String) :
    create_markdown stubResult f now =
      mkHeader (basename f) now ++ "[00:00] hello\n\n[00:01] world\n\n" := by
  simp only [stubResult]
  rw [create_markdown_some]
  simp only [bodyOf, segLine, format_timestamp_zero, format_timestamp_three_halves,
    String.append_empty]
  congr 1

/-- C2: for every integer-second input s in [0, 3599], format_timestamp
renders floor (s / 60) and s mod 60, each zero-padded to two digits and
separated by a colon (five characters in total), and minutes * 60 +
seconds re-parses to s; non-integer inputs are truncated, not rounded:
125.7 gives 02:05 and 59.9 gives 00:59. -/
theorem claim_c2 (s : ℕ) (h : s ≤ 3599) :
    format_timestamp (s : ℚ) =
        format02d ((s / 60 : ℕ) : ℤ) ++ ":" ++ format02d ((s % 60 : ℕ) : ℤ)
      ∧ (s / 60) * 60 + s % 60 = s
      ∧ (format_timestamp (s : ℚ)).length = 5
      ∧ format_timestamp (1257 / 10 : ℚ) = "02:05"
      ∧ format_timestamp (599 / 10 : ℚ) = "00:59" := by
  refine ⟨format_timestamp_natCast s, by omega, ?_, format_timestamp_1257, format_timestamp_599⟩
  rw [format_timestamp_natCast, String.length_append, String.length_append,
    format02d_len _ (show s / 60 < 60 by omega), format02d_len _ (show s % 60 < 60 by omega)]
  rfl

/-- Witness for C2 at s = 125. -/
theorem claim_c2_witness :
    (125 : ℕ) ≤ 3599 ∧
      (format_timestamp ((125 : ℕ) : ℚ) =
          format02d (((125 : ℕ) / 60 : ℕ) : ℤ) ++ ":" ++ format02d (((125 : ℕ) % 60 : ℕ) : ℤ)
        ∧ ((125 : ℕ) / 60) * 60 + (125 : ℕ) % 60 = 125
        ∧ (format_timestamp ((125 : ℕ) : ℚ)).length = 5
        ∧ format_timestamp (1257 / 10 : ℚ) = "02:05"
        ∧ format_timestamp (599 / 10 : ℚ) = "00:59") :=
  ⟨by decide, claim_c2 125 (by decide)⟩

/-- C3 counterexample: when the underlying model invocation fails (here
with an out-of-memory cause), transcribe_audio does not surface a
TranscriptionError; it returns no result, against the claim that the
failure is surfaced as a TranscriptionError wrapping the cause. -/
theorem claim_c3_counterexample :
    (transcribe_audio (Except.error "out of memory")).2 = EngineOutcome.noResult ∧
    ¬ ∃ cause, (transcribe_audio (Except.error "out of memory")).2 =
        EngineOutcome.transcriptionError cause := by
  refine ⟨rfl, ?_⟩
  rintro ⟨c, hc⟩
  simp [transcribe_audio] at hc

/-- C3 amended: for every run whose model invocation raises, the engine
catches the exception and returns no result (None) instead of raising a
TranscriptionError, and the pipeline aborts without writing any output
document: the file system is unchanged, nothing escapes main, and the
format and persist stages never run. -/
theorem claim_c3 (w : World) (e : String) (hm : w.modelOutcome = Except.error e)
    (hex : (w.files audio_file).isSome = true) :
    (transcribe_audio w.modelOutcome).2 = EngineOutcome.noResult ∧
    (main w).files = w.files ∧
    (main w).raised = none ∧
    Stage.formatStage ∉ (main w).events ∧
    Stage.persist ∉ (main w).events := by
  obtain ⟨v, hv⟩ := Option.isSome_iff_exists.mp hex
  refine ⟨by rw [hm]; rfl, ?_, ?_, ?_, ?_⟩ <;>
    simp [main, run, hm, hv, transcribe_audio]

/-- Witness for C3 in the sample world wC3. -/
theorem claim_c3_witness :
    wC3.modelOutcome = Except.error "out of memory" ∧
    (wC3.files audio_file).isSome = true ∧
    ((transcribe_audio wC3.modelOutcome).2 = EngineOutcome.noResult ∧
      (main wC3).files = wC3.files ∧
      (main wC3).raised = none ∧
      Stage.formatStage ∉ (main wC3).events ∧
      Stage.persist ∉ (main wC3).events) :=
  ⟨rfl, by decide, claim_c3 wC3 "out of memory" rfl (by decide)⟩

/-- C4 counterexample: on a missing input path the run does not fail
with an InputNotFoundError: no exception of any kind escapes, against
the claim that the run fails with InputNotFoundError. -/
theorem claim_c4_counterexample :
    (run "missing.mp3" wC4).raised = none ∧
    ¬ ∃ exc, (run "missing.mp3" wC4).raised = some exc := by
  refine ⟨rfl, ?_⟩
  rintro ⟨x, hx⟩
  simp [run, wC4] at hx

/-- C4 amended: for every input path that does not exist, the run logs
an error message and returns normally instead of failing with an
InputNotFoundError; it performs no model load, no transcription and no
persistence: the file system is unchanged and no output file is
created. -/
theorem claim_c4 (p : String) (w : World) (h : w.files p = none) :
    (run p w).raised = none ∧
    (run p w).files = w.files ∧
    (run p w).events = [Stage.validate] ∧
    (run p w).loads = [] ∧
    (run p w).log = [("ERROR", "Input file not found: " ++ p)] := by
  refine ⟨?_, ?_, ?_, ?_, ?_⟩ <;> simp [run, h]

/-- Witness for C4 at the path "missing.mp3" in the empty world wC4. -/
theorem claim_c4_witness :
    wC4.files "missing.mp3" = none ∧
    ((run "missing.mp3" wC4).raised = none ∧
      (run "missing.mp3" wC4).files = wC4.files ∧
      (run "missing.mp3" wC4).events = [Stage.validate] ∧
      (run "missing.mp3" wC4).loads = [] ∧
      (run "missing.mp3" wC4).log = [("ERROR", "Input file not found: " ++ "missing.mp3")]) :=
  ⟨rfl, claim_c4 "missing.mp3" wC4 rfl⟩

/-- C5: on a successful run (input present, model succeeds) the stage
sequence is validate, load model, transcribe, format, persist; no
conversion stage ever runs: the transcription operates directly on the
input path, against the claim (and the module docstring of the script)
that a Format Converter produces a decoded intermediate file before
transcription. -/
theorem claim_c5 :
    (main wC5).events = [Stage.validate, Stage.loadModel, Stage.transcribeStage,
      Stage.formatStage, Stage.persist] ∧
    Stage.convert ∉ (main wC5).events ∧
    (main wC5).files (stem audio_file ++ "_transcription.md") =
      some (create_markdown stubResult audio_file wC5.now) := by
  refine ⟨?_, ?_, ?_⟩ <;> simp [main, run, wC5, transcribe_audio]

/-- C6: in timestamped mode, the document is the header followed by the
join of exactly one line per segment, in segment order; each line is
"[MM:SS] " plus the stripped text plus a blank-line separator, and a
segment whose text strips to the empty string still contributes its
line (the map keeps every segment: the line count equals the segment
count). -/
theorem claim_c6 (t : String) (segs : List Segment) (f now : String) :
    create_markdown { text := t, segments := some segs } f now =
      mkHeader (basename f) now ++ String.join (segs.map segLine) ∧
    (segs.map segLine).length = segs.length := by
  refine ⟨?_, by simp⟩
  rw [create_markdown_some, bodyOf_eq_join]

/-- C7: a successful run writes the document at the deterministic path
stem of the input plus "_transcription.md"; running again on the same
input overwrites that same path with the new document and touches no
other path. -/
theorem claim_c7 (f : String) (w : World) (r1 r2 : Transcription) (now2 : String)
    (h1 : w.modelOutcome = Except.ok r1)
    (hex : (w.files f).isSome = true)
    (hne : stem f ++ "_transcription.md" ≠ f) :
    (run f w).files (stem f ++ "_transcription.md") =
        some (create_markdown r1 f w.now) ∧
    (run f { files := (run f w).files, modelOutcome := Except.ok r2, now := now2 }).files
        (stem f ++ "_transcription.md") = some (create_markdown r2 f now2) ∧
    (∀ p, p ≠ stem f ++ "_transcription.md" →
      (run f { files := (run f w).files, modelOutcome := Except.ok r2, now := now2 }).files p
        = w.files p) := by
  obtain ⟨v, hv⟩ := Option.isSome_iff_exists.mp hex
  have hfo : ¬ (f = stem f ++ "_transcription.md") := fun h => hne h.symm
  have hfst : (run f w).files = fun p =>
      if p = stem f ++ "_transcription.md" then some (create_markdown r1 f w.now)
      else w.files p := by
    funext p
    simp [run, h1, hv, transcribe_audio]
  refine ⟨?_, ?_, ?_⟩
  · rw [hfst]
    simp
  · rw [hfst]
    simp [run, transcribe_audio, hfo, hv]
  · intro p hp
    rw [hfst]
    simp [run, transcribe_audio, hfo, hv, hp]

/-- Witness for C7: the hardcoded input in the sample world wC5, run
first with the stub result and then with a second result. -/
theorem claim_c7_witness :
    wC5.modelOutcome = Except.ok stubResult ∧
    (wC5.files audio_file).isSome = true ∧
    stem audio_file ++ "_transcription.md" ≠ audio_file ∧
    ((run audio_file wC5).files (stem audio_file ++ "_transcription.md") =
        some (create_markdown stubResult audio_file wC5.now) ∧
      (run audio_file
          { files := (run audio_file wC5).files
            modelOutcome := Except.ok secondResult
            now := "2024-01-02 00:00:00" }).files
        (stem audio_file ++ "_transcription.md") =
          some (create_markdown secondResult audio_file "2024-01-02 00:00:00") ∧
      (∀ p, p ≠ stem audio_file ++ "_transcription.md" →
        (run audio_file
            { files := (run audio_file wC5).files
              modelOutcome := Except.ok secondResult
              now := "2024-01-02 00:00:00" }).files p
          = wC5.files p)) :=
  ⟨rfl, by decide, by decide,
    claim_c7 audio_file wC5 stubResult secondResult "2024-01-02 00:00:00" rfl
      (by decide) (by decide)⟩

/-- C8: a transcription result whose segments sequence is empty renders,
in timestamped mode, to the header with an empty body, and no error is
raised (the rendering function is total). -/
theorem claim_c8 (t f now : String) :
    create_markdown { text := t, segments := some [] } f now =
      mkHeader (basename f) now := by
  rw [create_markdown_some]
  simp [bodyOf, String.append_empty]

/-- C9 counterexample: a process performing two transcription calls
loads the base model twice, against the claim that the model for a given
size is loaded at most once per process lifetime. -/
theorem claim_c9_counterexample :
    (processLoads [Except.ok stubResult, Except.ok stubResult]).count "base" = 2 ∧
    ¬ (processLoads [Except.ok stubResult, Except.ok stubResult]).count "base" ≤ 1 := by
  refine ⟨?_, ?_⟩ <;> simp [processLoads, transcribe_audio]

/-- C9 amended: every transcription call within one process loads the
model anew (always size base): n calls perform exactly n loads; there is
no in-process cache and no reuse. -/
theorem claim_c9 (calls : List (Except String Transcription)) :
    (processLoads calls).count "base" = calls.length := by
  induction calls with
  | nil => rfl
  | cons c rest ih =>
    cases c <;> simp [processLoads, transcribe_audio, List.count_append] at ih ⊢ <;> omega

/-- C10: a transcription dict with no "segments" key at all renders to
the header block alone (source file name, generation timestamp, segments
heading), with no segment lines and no error. -/
theorem claim_c10 (t f now : String) :
    create_markdown { text := t, segments := none } f now =
      mkHeader (basename f) now := rfl

end TranscribeAudio
